import Mathlib

/-!
Shallow embedding of the viewport-driven data-fetch coordination core of the
wikigraph repository (a React/Leaflet map client for browsing nearby
Wikipedia places), together with proofs about the properties stated in its
specification.

Conventions of the embedding:
* JavaScript numbers are modelled as `ℚ` (the claims only involve exactly
  representable decimal values).
* JavaScript `%` (sign-of-dividend remainder) is `jsRem`; `Math.floor` is
  `Int.floor`; `Number.prototype.toFixed(3)` is modelled numerically by
  `round3` (round half towards positive infinity, which is what the
  ECMAScript `toFixed` specification prescribes).
* Asynchronous functions are split at their `await` points: the code before
  the `await` becomes a `...Start` function on an explicit state record, and
  the continuation after the `await` becomes a `...Resume` function that is
  applied when the corresponding network response arrives.  `AbortController`
  instances are modelled as generation numbers: a `ctrlCounter` field
  allocates fresh controllers, `abortedCtrls` records the aborted ones, and
  `currentCtrl` is the controller currently stored in the component's
  `abortControllerRef`.
* Network calls in flight are recorded in a `pending` list, so "issues a
  network call" is observable as growth of that list.
-/

namespace WikiGraph

/-! ## Data model (src/lib/wikipedia.ts) -/

/-- `WikiPlace` from src/lib/wikipedia.ts: a geosearch result. -/
structure WikiPlace where
  pageid : Nat
  title : String
  lat : ℚ
  lon : ℚ
  dist : Option ℚ := none
deriving DecidableEq, Repr

/-- Thumbnail record of a `WikiArticle`. -/
structure WikiThumbnail where
  source : String
  width : Nat
  height : Nat
deriving DecidableEq, Repr

/-- Coordinates record of a `WikiArticle`. -/
structure WikiCoordinates where
  lat : ℚ
  lon : ℚ
deriving DecidableEq, Repr

/-- `WikiArticle` from src/lib/wikipedia.ts: a detail record for a place. -/
structure WikiArticle where
  pageid : Nat
  title : String
  extract : String
  thumbnail : Option WikiThumbnail := none
  coordinates : Option WikiCoordinates := none
  fullurl : String := ""
deriving DecidableEq, Repr

/-! ## JavaScript arithmetic helpers -/

/-- Truncation towards zero, as JavaScript division-based remainders use. -/
def truncQ (q : ℚ) : ℤ := if 0 ≤ q then ⌊q⌋ else ⌈q⌉

/-- JavaScript `a % n`: remainder with the sign of the dividend. -/
def jsRem (a n : ℚ) : ℚ := a - n * truncQ (a / n)

/-! ## fetchNearbyPlaces request normalization (src/lib/wikipedia.ts 33-54)

`fetchNearbyPlaces` builds the outbound geosearch query from
`Math.min(90, Math.max(-90, lat))`, `((((lon + 180) % 360) + 360) % 360) - 180`
and `Math.floor(Math.min(Math.max(radius, 10), 10000))`. -/

/-- `safeLat` inside `fetchNearbyPlaces`. -/
def safeLat (lat : ℚ) : ℚ := min 90 (max (-90) lat)

/-- `safeLon` inside `fetchNearbyPlaces`. -/
def safeLon (lon : ℚ) : ℚ := jsRem (jsRem (lon + 180) 360 + 360) 360 - 180

/-- `safeRadius` inside `fetchNearbyPlaces`. -/
def safeRadius (radius : ℚ) : ℤ := ⌊min (max radius 10) 10000⌋

/-- The parameters of the outbound geosearch query URL
(`gscoord=${safeLat}|${safeLon}&gsradius=${safeRadius}`). -/
structure GeoRequest where
  gscoordLat : ℚ
  gscoordLon : ℚ
  gsradius : ℤ
deriving DecidableEq, Repr

/-- The query built by `fetchNearbyPlaces` before the network call. -/
def buildGeoRequest (lat lon radius : ℚ) : GeoRequest :=
  { gscoordLat := safeLat lat, gscoordLon := safeLon lon, gsradius := safeRadius radius }

/-- Outcome of the network interaction performed by `fetchNearbyPlaces`. -/
inductive NetOutcome where
  | success (places : List WikiPlace)
  | failure
deriving DecidableEq, Repr

/-- The value `fetchNearbyPlaces` returns to its caller: the parsed list on
success, and the empty list on any failure (the `catch` block logs the error
and returns `[]`; the function never throws to its caller). -/
def fetchNearbyPlacesResult : NetOutcome → List WikiPlace
  | .success places => places
  | .failure => []

/-! ## Search radius (src/hooks/useMapPlaces.ts 42-47 and the revisions of
src/components/MapView.tsx)

Both take the Leaflet viewport bounds and compute
`distance = ne.distanceTo(sw) / 2`.  The great-circle distance between the
opposite corners is supplied by the external map widget, so it is a parameter
`neSwDistance` here. -/

/-- `calculateRadius` of src/hooks/useMapPlaces.ts (and of the clustered
MapView revisions): `Math.min(Math.max(distance, 8000), 10000)`. -/
def calculateRadius (neSwDistance : ℚ) : ℚ :=
  min (max (neSwDistance / 2) 8000) 10000

/-- `calculateRadius` of the early react-leaflet revision of
src/components/MapView.tsx (lines 52-57): `Math.min(distance, 10000)` with no
lower clamp. -/
def calculateRadiusV1 (neSwDistance : ℚ) : ℚ :=
  min (neSwDistance / 2) 10000

/-! ## GeoFetchCoordinator (src/hooks/useMapPlaces.ts) -/

/-- `MIN_SCAN_ZOOM` from src/lib/mapConstants.ts. -/
def MIN_SCAN_ZOOM : ℚ := 11

/-- `toFixed(3)` modelled numerically: round to 3 decimals, ties towards the
larger value, exactly as the ECMAScript `toFixed` specification prescribes
(Mathlib's `round` is `⌊x + 1/2⌋`, which picks the larger value on ties). -/
def round3 (x : ℚ) : ℚ := (round (x * 1000) : ℚ) / 1000

/-- The canonical dedup key
`` `${center.lat.toFixed(3)}:${center.lng.toFixed(3)}:${radius}:${language}` ``
of src/hooks/useMapPlaces.ts line 102, modelled as a record of its four
components (the `toFixed(3)` rendering is injective on rounded values, so
string equality of the source keys coincides with equality of this record). -/
structure FetchKey where
  latFixed3 : ℚ
  lonFixed3 : ℚ
  radius : ℚ
  language : String
deriving DecidableEq, Repr

/-- Builds the dedup key from the viewport center, radius and language. -/
def mkFetchKey (lat lon radius : ℚ) (language : String) : FetchKey :=
  { latFixed3 := round3 lat, lonFixed3 := round3 lon, radius := radius, language := language }

/-- The state owned by `useMapPlaces`: the published React state
(`places`, `isLoadingPlaces`, `isScanDisabled`) together with the refs
(`lastFetchKeyRef`, `abortControllerRef`) and the bookkeeping of live network
calls.  `lastFetchKey = none` models the initial `''` (and the reset performed
by `triggerImmediateFetch`).  Controllers are generation numbers:
`currentCtrl` is the controller stored in `abortControllerRef`,
`abortedCtrls` the set of controllers on which `abort()` was called, and
`ctrlCounter` the next fresh controller. -/
structure GeoState where
  places : List WikiPlace
  isLoading : Bool
  isScanDisabled : Bool
  lastFetchKey : Option FetchKey
  currentCtrl : Option Nat
  abortedCtrls : List Nat
  ctrlCounter : Nat
  pending : List (Nat × FetchKey)
deriving DecidableEq, Repr

/-- The state of the hook on mount. -/
def initialGeoState : GeoState :=
  { places := [], isLoading := false, isScanDisabled := false, lastFetchKey := none,
    currentCtrl := none, abortedCtrls := [], ctrlCounter := 0, pending := [] }

/-- `abortControllerRef.current?.signal.aborted`: whether the controller
currently stored in the ref has been aborted (`false` when the ref is null,
matching the optional chaining). -/
def currentAborted (s : GeoState) : Bool :=
  match s.currentCtrl with
  | some c => s.abortedCtrls.contains c
  | none => false

/-- The synchronous prefix of `fetchPlacesForBounds`
(src/hooks/useMapPlaces.ts 83-115), up to the `await`:
zoom gate, radius computation, dedup-key check, abort of the previous
controller, allocation of a fresh controller, and issuing of the network
call.  `zoom`, the viewport center and the corner distance are read from the
external map widget and are parameters here. -/
def fetchPlacesForBoundsStart (zoom centerLat centerLng neSwDistance : ℚ)
    (language : String) (s : GeoState) : GeoState :=
  if zoom < MIN_SCAN_ZOOM then
    { s with isScanDisabled := true, places := [] }
  else
    let s := { s with isScanDisabled := false }
    let radius := calculateRadius neSwDistance
    let fetchKey := mkFetchKey centerLat centerLng radius language
    if s.lastFetchKey = some fetchKey then
      s
    else
      { s with
        abortedCtrls :=
          match s.currentCtrl with
          | some c => c :: s.abortedCtrls
          | none => s.abortedCtrls,
        currentCtrl := some s.ctrlCounter,
        ctrlCounter := s.ctrlCounter + 1,
        lastFetchKey := some fetchKey,
        isLoading := true,
        pending := s.pending ++ [(s.ctrlCounter, fetchKey)] }

/-- The continuation of `fetchPlacesForBounds` after
`await fetchNearbyPlaces(...)` resolves (src/hooks/useMapPlaces.ts 117-132),
applied to the resolving call's controller `ctrl` and the list the
collaborator returned.  As in the source, the suppression check reads
`abortControllerRef.current?.signal.aborted` — the controller currently in
the ref, not the controller `ctrl` this call was started with — and the
`finally` block clears the loading flag on every path.  The `catch` branch of
the source is unreachable because `fetchNearbyPlaces` never throws. -/
def fetchPlacesForBoundsResume (ctrl : Nat) (result : List WikiPlace)
    (s : GeoState) : GeoState :=
  let s := { s with pending := s.pending.filter (fun p => p.1 ≠ ctrl) }
  if currentAborted s then
    { s with isLoading := false }
  else
    { s with places := result, isLoading := false }

/-! ## HoverPreviewCache (useHoverPreview, src/unnamed/part_003)

The hover hook owns a bounded FIFO cache `cacheRef : Map<string, WikiArticle>`
with insertion order tracked in `cacheOrderRef : string[]`.  The JS `Map` is
modelled as an association list; `Map.set` replaces in place when the key is
present and appends otherwise, `Map.delete` removes the key, `Map.get`/`has`
look the key up. -/

/-- `MAX_CACHE_SIZE` from useHoverPreview. -/
def MAX_CACHE_SIZE : Nat := 50

/-- JS `Map.prototype.set` on an association list: replace in place if the
key exists, append otherwise. -/
def mapSet (m : List (String × WikiArticle)) (k : String) (v : WikiArticle) :
    List (String × WikiArticle) :=
  if m.any (fun p => p.1 == k) then
    m.map (fun p => if p.1 == k then (k, v) else p)
  else
    m ++ [(k, v)]

/-- JS `Map.prototype.delete`. -/
def mapDelete (m : List (String × WikiArticle)) (k : String) :
    List (String × WikiArticle) :=
  m.filter (fun p => p.1 ≠ k)

/-- JS `Map.prototype.get` (`undefined` is `none`). -/
def mapGet (m : List (String × WikiArticle)) (k : String) : Option WikiArticle :=
  (m.find? (fun p => p.1 == k)).map (fun p => p.2)

/-- `getCacheKey` from useHoverPreview: `` `${lang}:${pageid}` ``. -/
def getCacheKey (pageid : Nat) (lang : String) : String :=
  lang ++ ":" ++ toString pageid

/-- The eviction loop of `addToCache`:
`while (cacheOrderRef.current.length >= MAX_CACHE_SIZE) { shift; delete }`. -/
def evictLoop : List (String × WikiArticle) → List String →
    List (String × WikiArticle) × List String
  | cache, [] => (cache, [])
  | cache, oldest :: rest =>
    if MAX_CACHE_SIZE ≤ rest.length + 1 then
      evictLoop (mapDelete cache oldest) rest
    else
      (cache, oldest :: rest)

/-- `addToCache` from useHoverPreview: evict oldest-first while at capacity,
then insert the new entry and record it as youngest. -/
def addToCache (cache : List (String × WikiArticle)) (order : List String)
    (key : String) (article : WikiArticle) :
    List (String × WikiArticle) × List String :=
  let co := evictLoop cache order
  (mapSet co.1 key article, co.2 ++ [key])

/-- The state owned by `useHoverPreview`: the React state
(`hoveredArticle`, `hoverPosition`, `isLoadingHover`) and the refs
(`hoverTimeoutRef`, `abortControllerRef`, `cacheRef`, `cacheOrderRef`).
`hoverTimeout` holds the pageid and cache key captured by a scheduled but not
yet fired 300 ms timeout; `pendingFetch` records detail fetches in flight as
(controller, pageid, cache key) triples. -/
structure HoverState where
  hoveredArticle : Option WikiArticle
  hoverPosition : Option (ℚ × ℚ)
  isLoadingHover : Bool
  hoverTimeout : Option (Nat × String)
  currentCtrl : Option Nat
  abortedCtrls : List Nat
  ctrlCounter : Nat
  cache : List (String × WikiArticle)
  cacheOrder : List String
  pendingFetch : List (Nat × Nat × String)
deriving DecidableEq, Repr

/-- The hover hook's state on mount. -/
def initialHoverState : HoverState :=
  { hoveredArticle := none, hoverPosition := none, isLoadingHover := false,
    hoverTimeout := none, currentCtrl := none, abortedCtrls := [], ctrlCounter := 0,
    cache := [], cacheOrder := [], pendingFetch := [] }

/-- `abortControllerRef.current?.signal.aborted` of the hover hook. -/
def hoverCurrentAborted (s : HoverState) : Bool :=
  match s.currentCtrl with
  | some c => s.abortedCtrls.contains c
  | none => false

/-- The synchronous body of `handleMarkerHover` (part_003 lines 108-131):
clear the pending timeout, abort the controller currently in the ref, record
the cursor position, serve a cache hit synchronously, otherwise schedule the
delayed fetch. -/
def handleMarkerHover (language : String) (place : WikiPlace) (clientX clientY : ℚ)
    (s : HoverState) : HoverState :=
  let s := { s with hoverTimeout := none }
  let s := { s with
    abortedCtrls :=
      match s.currentCtrl with
      | some c => c :: s.abortedCtrls
      | none => s.abortedCtrls }
  let s := { s with hoverPosition := some (clientX, clientY) }
  let cacheKey := getCacheKey place.pageid language
  match mapGet s.cache cacheKey with
  | some article => { s with hoveredArticle := some article, isLoadingHover := false }
  | none => { s with hoverTimeout := some (place.pageid, cacheKey) }

/-- The firing of the 300 ms hover timeout (part_003 lines 131-136): set the
loading flag, store a fresh controller in the ref, and start the detail
fetch. -/
def hoverTimeoutFire (s : HoverState) : HoverState :=
  match s.hoverTimeout with
  | none => s
  | some (pageid, cacheKey) =>
    { s with
      hoverTimeout := none,
      isLoadingHover := true,
      currentCtrl := some s.ctrlCounter,
      ctrlCounter := s.ctrlCounter + 1,
      pendingFetch := s.pendingFetch ++ [(s.ctrlCounter, pageid, cacheKey)] }

/-- The continuation after `await fetchArticleDetails(...)` resolves in the
hover path (part_003 lines 138-157).  `ctrl` and `cacheKey` are the values
the continuation closed over; the suppression check reads
`abortControllerRef.current?.signal.aborted` — the controller currently in
the ref — and the `finally` block clears the loading flag on every path.  A
`null` article is neither cached nor displayed. -/
def hoverFetchResolve (ctrl : Nat) (cacheKey : String) (result : Option WikiArticle)
    (s : HoverState) : HoverState :=
  let s := { s with pendingFetch := s.pendingFetch.filter (fun p => p.1 ≠ ctrl) }
  if hoverCurrentAborted s then
    { s with isLoadingHover := false }
  else
    match result with
    | some article =>
      let co := addToCache s.cache s.cacheOrder cacheKey article
      { s with cache := co.1, cacheOrder := co.2,
               hoveredArticle := some article, isLoadingHover := false }
    | none => { s with isLoadingHover := false }

/-! ## SelectionController (`handleMarkerClick`, src/unnamed/part_002 165-173)

```js
const handleMarkerClick = async (place) => {
  setSelectedPlace(place); setIsPanelOpen(true); setIsLoadingArticle(true);
  const article = await fetchArticleDetails(place.pageid);
  setSelectedArticle(article); setIsLoadingArticle(false);
};
```
There is no cancellation token and no staleness check on this path. -/

/-- The selection-slot state of the MapView component. -/
structure SelectionState where
  selectedPlace : Option WikiPlace
  selectedArticle : Option WikiArticle
  isLoadingArticle : Bool
  isPanelOpen : Bool
  pendingClick : List Nat
deriving DecidableEq, Repr

/-- The selection slot on mount. -/
def initialSelectionState : SelectionState :=
  { selectedPlace := none, selectedArticle := none, isLoadingArticle := false,
    isPanelOpen := false, pendingClick := [] }

/-- The synchronous prefix of `handleMarkerClick`, up to the `await`. -/
def handleMarkerClickStart (place : WikiPlace) (s : SelectionState) : SelectionState :=
  { s with selectedPlace := some place, isPanelOpen := true, isLoadingArticle := true,
           pendingClick := s.pendingClick ++ [place.pageid] }

/-- The continuation of `handleMarkerClick` after the detail fetch resolves:
it updates the panel unconditionally. -/
def handleMarkerClickResume (pageid : Nat) (article : Option WikiArticle)
    (s : SelectionState) : SelectionState :=
  { s with selectedArticle := article, isLoadingArticle := false,
           pendingClick := s.pendingClick.filter (fun p => p ≠ pageid) }

/-! ## BookmarkStore (src/hooks/useBookmarks.ts) -/

/-- `BookmarkedPlace` from src/hooks/useBookmarks.ts. -/
structure BookmarkedPlace where
  pageid : Nat
  title : String
  lat : ℚ
  lon : ℚ
  savedAt : Nat
deriving DecidableEq, Repr

/-- `MAX_BOOKMARKS` from src/hooks/useBookmarks.ts. -/
def MAX_BOOKMARKS : Nat := 100

/-- The user-visible outcome toasted by `toggleBookmark`. -/
inductive ToggleOutcome where
  | added
  | removed
  | limitReached
deriving DecidableEq, Repr

/-- `toggleBookmark` (src/hooks/useBookmarks.ts 44-73): remove when present;
otherwise reject at the cap, else append with the current timestamp. -/
def toggleBookmark (now : Nat) (place : WikiPlace) (prev : List BookmarkedPlace) :
    List BookmarkedPlace × ToggleOutcome :=
  if prev.any (fun b => b.pageid == place.pageid) then
    (prev.filter (fun b => b.pageid ≠ place.pageid), .removed)
  else if MAX_BOOKMARKS ≤ prev.length then
    (prev, .limitReached)
  else
    (prev ++ [{ pageid := place.pageid, title := place.title, lat := place.lat,
                lon := place.lon, savedAt := now }], .added)

/-- `removeBookmark` (src/hooks/useBookmarks.ts 80-86). -/
def removeBookmark (pageid : Nat) (prev : List BookmarkedPlace) :
    List BookmarkedPlace :=
  prev.filter (fun b => b.pageid ≠ pageid)

/-- The load-on-mount effect (src/hooks/useBookmarks.ts 20-33): a stored JSON
array is truncated with `slice(0, MAX_BOOKMARKS)`; anything else (missing
key, parse error, non-array) leaves the initial empty state. -/
def loadBookmarks (stored : Option (List BookmarkedPlace)) : List BookmarkedPlace :=
  match stored with
  | some parsed => parsed.take MAX_BOOKMARKS
  | none => []

/-- The bookmark-collection invariant claimed by the specification: at most
`MAX_BOOKMARKS` entries and no duplicate pageids. -/
def BookmarkInv (l : List BookmarkedPlace) : Prop :=
  l.length ≤ MAX_BOOKMARKS ∧ (l.map (fun b => b.pageid)).Nodup

/-! ## DiscoveryPicker (`useDiscovery`/`handleThemedDiscover`,
src/unnamed/part_003 lines 11-42, themes in src/unnamed/part_004) -/

/-- `HISTORY_SIZE` from useDiscovery. -/
def HISTORY_SIZE : Nat := 5

/-- A themed discovery location (src/lib/mapConstants). -/
structure DiscoveryLocation where
  name : String
  lat : ℚ
  lon : ℚ
deriving DecidableEq, Repr

/-- The themes of `DISCOVERY_THEMES` (src/lib/mapConstants). -/
inductive DiscoveryTheme where
  | random | castles | ruins | nature | religious | landmarks
deriving DecidableEq, Repr

/-- The number of locations each theme of `DISCOVERY_THEMES` carries in
src/lib/mapConstants (15 for `random`, 10 for every other theme). -/
def themeLocationCount : DiscoveryTheme → Nat
  | .random => 15
  | _ => 10

/-- The core of `handleThemedDiscover` for one theme: given the number `n` of
locations of the theme, the theme's history of recently chosen indices and
the value of `Math.floor(Math.random() * pool.length)` (modelled as an
arbitrary position `r % pool.length` into the pool, which reaches every
position the source can reach), it excludes the indices in the history, falls
back to the full index set when nothing remains, picks from the pool, appends
the chosen index to the history and truncates it to the most recent
`HISTORY_SIZE` entries with `slice(-5)`. -/
def pickDiscoveryIndex (n : Nat) (history : List Nat) (r : Nat) : Nat × List Nat :=
  let availableIndices := (List.range n).filter (fun i => !(history.contains i))
  let indicesToChooseFrom :=
    if 0 < availableIndices.length then availableIndices else List.range n
  let randomIndex := indicesToChooseFrom.getD (r % indicesToChooseFrom.length) 0
  let newHistory := (history ++ [randomIndex]).drop ((history.length + 1) - HISTORY_SIZE)
  (randomIndex, newHistory)

/-- A run of consecutive `handleThemedDiscover` calls for one theme, driven
by a list of random-source choices; returns the chosen indices and the final
history. -/
def runDiscoveryPicks (n : Nat) (history : List Nat) :
    List Nat → List Nat × List Nat
  | [] => ([], history)
  | r :: rs =>
    let p := pickDiscoveryIndex n history r
    let rest := runDiscoveryPicks n p.2 rs
    (p.1 :: rest.1, rest.2)

/-! ## Arithmetic lemmas about the JavaScript helpers -/

/-- For a nonnegative dividend and positive divisor, the JavaScript remainder
lies in `[0, n)`. -/
theorem jsRem_nonneg_bounds (a n : ℚ) (hn : 0 < n) (ha : 0 ≤ a) :
    0 ≤ jsRem a n ∧ jsRem a n < n := by
  have hq : (truncQ (a / n) : ℚ) = ⌊a / n⌋ := by
    unfold truncQ
    rw [if_pos (div_nonneg ha hn.le)]
  have hrw : jsRem a n = a - n * ⌊a / n⌋ := by
    unfold jsRem
    rw [hq]
  have hcancel : n * (a / n) = a := mul_div_cancel₀ a hn.ne'
  constructor
  · have h1 : (⌊a / n⌋ : ℚ) ≤ a / n := Int.floor_le _
    have h2 : n * (⌊a / n⌋ : ℚ) ≤ n * (a / n) := by
      exact mul_le_mul_of_nonneg_left h1 hn.le
    rw [hrw]
    linarith [hcancel ▸ h2]
  · have h1 : a / n < (⌊a / n⌋ : ℚ) + 1 := Int.lt_floor_add_one _
    have h2 : n * (a / n) < n * ((⌊a / n⌋ : ℚ) + 1) := by
      exact mul_lt_mul_of_pos_left h1 hn
    rw [hrw]
    nlinarith [hcancel ▸ h2]

/-- For a negative dividend and positive divisor, the JavaScript remainder
lies in `(-n, 0]`. -/
theorem jsRem_neg_bounds (a n : ℚ) (hn : 0 < n) (ha : a < 0) :
    -n < jsRem a n ∧ jsRem a n ≤ 0 := by
  have hdiv : a / n < 0 := div_neg_of_neg_of_pos ha hn
  have hq : (truncQ (a / n) : ℚ) = ⌈a / n⌉ := by
    unfold truncQ
    rw [if_neg (not_le.mpr hdiv)]
  have hrw : jsRem a n = a - n * ⌈a / n⌉ := by
    unfold jsRem
    rw [hq]
  have hcancel : n * (a / n) = a := mul_div_cancel₀ a hn.ne'
  constructor
  · have h1 : (⌈a / n⌉ : ℚ) < a / n + 1 := Int.ceil_lt_add_one _
    have h2 : n * (⌈a / n⌉ : ℚ) < n * (a / n + 1) := mul_lt_mul_of_pos_left h1 hn
    rw [hrw]
    nlinarith [hcancel ▸ h2]
  · have h1 : a / n ≤ (⌈a / n⌉ : ℚ) := Int.le_ceil _
    have h2 : n * (a / n) ≤ n * (⌈a / n⌉ : ℚ) := mul_le_mul_of_nonneg_left h1 hn.le
    rw [hrw]
    linarith [hcancel ▸ h2]

/-- The JavaScript remainder by a positive divisor lies in `(-n, n)`. -/
theorem jsRem_bounds (a n : ℚ) (hn : 0 < n) : -n < jsRem a n ∧ jsRem a n < n := by
  rcases le_or_lt 0 a with ha | ha
  · obtain ⟨h1, h2⟩ := jsRem_nonneg_bounds a n hn ha
    exact ⟨lt_of_lt_of_le (neg_lt_zero.mpr hn) h1, h2⟩
  · obtain ⟨h1, h2⟩ := jsRem_neg_bounds a n hn ha
    exact ⟨h1, lt_of_le_of_lt h2 hn⟩

/-! ## Claim C6: coordinate normalization in searchNearby -/

/-- C6.  Coordinate normalization in `fetchNearbyPlaces` (the spec's
`searchNearby`): the outbound geosearch query uses the latitude clamped into
`[-90, 90]` and the longitude normalized into `[-180, 180)`; in particular an
input longitude of 190 is sent as -170. -/
theorem searchNearby_coordinate_normalization :
    (∀ lat lon radius : ℚ,
      buildGeoRequest lat lon radius =
        { gscoordLat := safeLat lat, gscoordLon := safeLon lon,
          gsradius := safeRadius radius }) ∧
    (∀ lat : ℚ, -90 ≤ safeLat lat ∧ safeLat lat ≤ 90) ∧
    (∀ lon : ℚ, -180 ≤ safeLon lon ∧ safeLon lon < 180) ∧
    (buildGeoRequest 0 190 10000).gscoordLon = -170 := by
  refine ⟨fun _ _ _ => rfl, fun lat => ?_, fun lon => ?_, ?_⟩
  · constructor
    · exact le_min (by norm_num) (le_max_left _ _)
    · exact min_le_left _ _
  · have h1 : -(360 : ℚ) < jsRem (lon + 180) 360 := (jsRem_bounds (lon + 180) 360 (by norm_num)).1
    have h2 : (0 : ℚ) ≤ jsRem (lon + 180) 360 + 360 := by linarith
    obtain ⟨h3, h4⟩ := jsRem_nonneg_bounds (jsRem (lon + 180) 360 + 360) 360 (by norm_num) h2
    unfold safeLon
    constructor <;> linarith
  · show safeLon 190 = -170
    have e1 : jsRem (190 + 180 : ℚ) 360 = 10 := by
      unfold jsRem truncQ
      norm_num
    unfold safeLon
    rw [e1]
    unfold jsRem truncQ
    norm_num

/-! ## Claim C4: radius clamp -/

/-- C4, counterexample to the claim as stated.  The claim asserts that for
every viewport bounds `computeRadius` clamps the half-diagonal into
`[8000, 10000]`, so a half-diagonal of 3000 would yield exactly 8000 — but
the `calculateRadius` of the early revision of src/components/MapView.tsx
(lines 52-57), one of the cited implementations, applies no lower clamp and
returns 3000 for a corner distance of 6000 (half-diagonal 3000). -/
theorem calculateRadiusV1_no_floor :
    calculateRadiusV1 6000 = 3000 ∧ calculateRadiusV1 6000 ≠ 8000 := by
  have h : calculateRadiusV1 6000 = 3000 := by
    unfold calculateRadiusV1
    rw [min_eq_left (by norm_num)]
    norm_num
  exact ⟨h, by rw [h]; norm_num⟩

/-- C4, amended.  The `calculateRadius` of src/hooks/useMapPlaces.ts (and of
the clustered MapView revisions) returns half the corner-to-corner distance
clamped into `[8000, 10000]`: a half-diagonal of 3000 yields exactly 8000, a
half-diagonal of 50000 yields exactly 10000, and half-diagonals inside the
interval are returned unchanged; the early react-leaflet revision of
src/components/MapView.tsx applies only the 10000 ceiling and no floor. -/
theorem calculateRadius_clamp :
    (∀ d : ℚ, 8000 ≤ calculateRadius d ∧ calculateRadius d ≤ 10000) ∧
    (∀ d : ℚ, 8000 ≤ d / 2 → d / 2 ≤ 10000 → calculateRadius d = d / 2) ∧
    calculateRadius 6000 = 8000 ∧
    calculateRadius 100000 = 10000 ∧
    (∀ d : ℚ, d / 2 ≤ 10000 → calculateRadiusV1 d = d / 2) := by
  refine ⟨fun d => ⟨?_, ?_⟩, fun d h1 h2 => ?_, ?_, ?_, fun d h => min_eq_left h⟩
  · exact le_min (le_max_right _ _) (by norm_num)
  · exact min_le_right _ _
  · unfold calculateRadius
    rw [max_eq_left h1, min_eq_left h2]
  · unfold calculateRadius
    rw [max_eq_right (by norm_num), min_eq_left (by norm_num)]
  · unfold calculateRadius
    rw [max_eq_left (by norm_num), min_eq_right (by norm_num)]

/-- C4, witness: the amended clamp theorem applied at concrete half-diagonals
9000 (inside the interval) and 3000 (for the floor-less early revision). -/
theorem calculateRadius_clamp_witness :
    calculateRadius 18000 = (18000 : ℚ) / 2 ∧ calculateRadiusV1 6000 = (6000 : ℚ) / 2 := by
  constructor
  · exact calculateRadius_clamp.2.1 18000 (by norm_num) (by norm_num)
  · exact calculateRadius_clamp.2.2.2.2 6000 (by norm_num)

/-! ## Claim C5: zoom gate -/

/-- C5.  Whenever a scheduled fetch fires while the zoom level is strictly
below `MIN_SCAN_ZOOM = 11`, the point set becomes empty, the scan-disabled
flag is set and no network call is issued (the pending list, the loading
flag, the remembered dedup key and the controllers are all untouched) — for
every prior state, so regardless of debounce history or the remembered dedup
key. -/
theorem zoom_gate (s : GeoState) (zoom centerLat centerLng neSwDistance : ℚ)
    (language : String) (hz : zoom < MIN_SCAN_ZOOM) :
    fetchPlacesForBoundsStart zoom centerLat centerLng neSwDistance language s =
      { s with isScanDisabled := true, places := [] } := by
  unfold fetchPlacesForBoundsStart
  rw [if_pos hz]

/-- C5, witness: the zoom gate applied at zoom 9 on the initial state. -/
theorem zoom_gate_witness :
    fetchPlacesForBoundsStart 9 48 2 6000 "en" initialGeoState =
      { initialGeoState with isScanDisabled := true, places := [] } :=
  zoom_gate initialGeoState 9 48 2 6000 "en" (by norm_num [MIN_SCAN_ZOOM])

/-! ## Claim C3: fetch-key deduplication -/

/-- C3.  If two consecutive viewport-triggered fetch attempts (both passing
the zoom gate) compute the same canonical key — center latitude and longitude
rounded to 3 decimals, radius and locale all equal — and the first attempt is
not itself deduplicated, then the first attempt issues exactly one network
call and the second is skipped entirely: it leaves the state (including the
loading flag and the pending-call list) exactly as the first attempt left
it. -/
theorem fetch_key_dedup (s : GeoState)
    (zoom1 lat1 lon1 d1 zoom2 lat2 lon2 d2 : ℚ) (lang1 lang2 : String)
    (hz1 : ¬ zoom1 < MIN_SCAN_ZOOM) (hz2 : ¬ zoom2 < MIN_SCAN_ZOOM)
    (hkey : mkFetchKey lat1 lon1 (calculateRadius d1) lang1 =
            mkFetchKey lat2 lon2 (calculateRadius d2) lang2)
    (hfresh : s.lastFetchKey ≠ some (mkFetchKey lat1 lon1 (calculateRadius d1) lang1)) :
    (fetchPlacesForBoundsStart zoom1 lat1 lon1 d1 lang1 s).pending =
      s.pending ++ [(s.ctrlCounter, mkFetchKey lat1 lon1 (calculateRadius d1) lang1)] ∧
    fetchPlacesForBoundsStart zoom2 lat2 lon2 d2 lang2
        (fetchPlacesForBoundsStart zoom1 lat1 lon1 d1 lang1 s) =
      fetchPlacesForBoundsStart zoom1 lat1 lon1 d1 lang1 s := by
  have h1 : fetchPlacesForBoundsStart zoom1 lat1 lon1 d1 lang1 s =
      { s with
        isScanDisabled := false,
        abortedCtrls :=
          match s.currentCtrl with
          | some c => c :: s.abortedCtrls
          | none => s.abortedCtrls,
        currentCtrl := some s.ctrlCounter,
        ctrlCounter := s.ctrlCounter + 1,
        lastFetchKey := some (mkFetchKey lat1 lon1 (calculateRadius d1) lang1),
        isLoading := true,
        pending := s.pending ++ [(s.ctrlCounter, mkFetchKey lat1 lon1 (calculateRadius d1) lang1)] } := by
    unfold fetchPlacesForBoundsStart
    rw [if_neg hz1]
    simp only
    rw [if_neg (by simpa using hfresh)]
  refine ⟨by rw [h1], ?_⟩
  rw [h1]
  unfold fetchPlacesForBoundsStart
  rw [if_neg hz2]
  simp only
  rw [if_pos (by rw [← hkey])]

/-- C3, witness: two identical viewport events (zoom 13, center (48, 2),
corner distance 6000, locale "en") on the initial state — the second attempt
changes nothing and issues no call. -/
theorem fetch_key_dedup_witness :
    (fetchPlacesForBoundsStart 13 48 2 6000 "en" initialGeoState).pending =
      initialGeoState.pending ++
        [(initialGeoState.ctrlCounter, mkFetchKey 48 2 (calculateRadius 6000) "en")] ∧
    fetchPlacesForBoundsStart 13 48 2 6000 "en"
        (fetchPlacesForBoundsStart 13 48 2 6000 "en" initialGeoState) =
      fetchPlacesForBoundsStart 13 48 2 6000 "en" initialGeoState :=
  fetch_key_dedup initialGeoState 13 48 2 6000 13 48 2 6000 "en" "en"
    (by norm_num [MIN_SCAN_ZOOM]) (by norm_num [MIN_SCAN_ZOOM]) rfl (by simp [initialGeoState])

/-! ## Claim C10: absent hover detail -/

/-- C10.  When a hover-path detail fetch resolves with a `null` article (an
unknown id), the hover cache and its insertion order are left completely
unchanged (no negative caching), the displayed preview article and position
are untouched, and only the hover loading flag is cleared — on every state,
whether or not the fetch was superseded. -/
theorem hover_null_article_no_cache (s : HoverState) (ctrl : Nat) (cacheKey : String) :
    hoverFetchResolve ctrl cacheKey none s =
      { s with isLoadingHover := false,
               pendingFetch := s.pendingFetch.filter (fun p => p.1 ≠ ctrl) } := by
  unfold hoverFetchResolve
  simp only [ite_self]

/-! ## Claim C7: bookmark cap invariant -/

/-- C7.  The bookmark-collection invariant (at most `MAX_BOOKMARKS = 100`
entries, no duplicate pageids) is preserved by `toggleBookmark` and
`removeBookmark`; the initial load keeps it for any stored array without
duplicate ids (the `slice(0, MAX_BOOKMARKS)` enforces the cap) and
establishes it for malformed storage; and a toggle of a new id when the
collection already holds `MAX_BOOKMARKS` entries leaves the collection
completely unchanged and reports the user-visible limit notice. -/
theorem bookmark_cap_invariant :
    (∀ (now : Nat) (place : WikiPlace) (prev : List BookmarkedPlace),
      BookmarkInv prev → BookmarkInv (toggleBookmark now place prev).1) ∧
    (∀ (pageid : Nat) (prev : List BookmarkedPlace),
      BookmarkInv prev → BookmarkInv (removeBookmark pageid prev)) ∧
    (∀ parsed : List BookmarkedPlace,
      (parsed.map (fun b => b.pageid)).Nodup → BookmarkInv (loadBookmarks (some parsed))) ∧
    BookmarkInv (loadBookmarks none) ∧
    (∀ (now : Nat) (place : WikiPlace) (prev : List BookmarkedPlace),
      prev.length = MAX_BOOKMARKS →
      place.pageid ∉ prev.map (fun b => b.pageid) →
      toggleBookmark now place prev = (prev, .limitReached)) := by
  have hfilter : ∀ (p : BookmarkedPlace → Bool) (prev : List BookmarkedPlace),
      BookmarkInv prev → BookmarkInv (prev.filter p) := by
    intro p prev ⟨hlen, hnodup⟩
    constructor
    · exact le_trans (List.length_filter_le _ _) hlen
    · exact hnodup.sublist ((List.filter_sublist prev).map _)
  refine ⟨?_, ?_, ?_, ?_, ?_⟩
  · intro now place prev hinv
    unfold toggleBookmark
    by_cases hmem : prev.any (fun b => b.pageid == place.pageid)
    · rw [if_pos hmem]
      exact hfilter _ prev hinv
    · rw [if_neg hmem]
      by_cases hcap : MAX_BOOKMARKS ≤ prev.length
      · rw [if_pos hcap]
        exact hinv
      · rw [if_neg hcap]
        obtain ⟨hlen, hnodup⟩ := hinv
        constructor
        · simp only [List.length_append, List.length_singleton]
          omega
        · rw [List.map_append, List.nodup_append]
          refine ⟨hnodup, by simp, ?_⟩
          intro a ha hb
          simp only [List.map_cons, List.map_nil, List.mem_singleton] at hb
          subst hb
          have : ∀ b ∈ prev, ¬(b.pageid == place.pageid) = true := by
            simpa [List.any_eq_true] using hmem
          obtain ⟨b, hbmem, hbeq⟩ := List.mem_map.mp ha
          exact absurd (beq_iff_eq.mpr hbeq) (this b hbmem)
  · intro pageid prev hinv
    exact hfilter _ prev hinv
  · intro parsed hnodup
    constructor
    · simp only [loadBookmarks]
      exact List.length_take_le MAX_BOOKMARKS parsed
    · exact hnodup.sublist ((List.take_sublist MAX_BOOKMARKS parsed).map _)
  · exact ⟨by simp [loadBookmarks], by simp [loadBookmarks]⟩
  · intro now place prev hlen hfreshid
    unfold toggleBookmark
    have hany : ¬ prev.any (fun b => b.pageid == place.pageid) = true := by
      simp only [List.any_eq_true, beq_iff_eq]
      rintro ⟨b, hbmem, hbeq⟩
      exact hfreshid (List.mem_map.mpr ⟨b, hbmem, hbeq⟩)
    rw [if_neg hany, if_pos (le_of_eq hlen.symm)]

/-- A full collection of 100 bookmarks with distinct pageids, used to witness
the bookmark cap. -/
def fullBookmarkList : List BookmarkedPlace :=
  (List.range MAX_BOOKMARKS).map
    (fun i => { pageid := i, title := "", lat := 0, lon := 0, savedAt := 0 })

/-- C7, witness: toggling a new id (1000) on a full 100-entry collection is
rejected with the limit notice and leaves the collection unchanged. -/
theorem bookmark_cap_invariant_witness :
    toggleBookmark 7 { pageid := 1000, title := "", lat := 0, lon := 0 } fullBookmarkList =
      (fullBookmarkList, .limitReached) :=
  bookmark_cap_invariant.2.2.2.2 7 _ fullBookmarkList
    (by simp [fullBookmarkList])
    (by simp [fullBookmarkList, List.map_map, List.mem_range, Function.comp, MAX_BOOKMARKS])

/-! ## Claim C8: hover cache FIFO eviction -/

/-- After the eviction loop, the insertion-order list is strictly below the
capacity. -/
theorem evictLoop_order_length (o : List String) :
    ∀ c, ((evictLoop c o).2).length < MAX_CACHE_SIZE := by
  induction o with
  | nil => intro c; simp [evictLoop, MAX_CACHE_SIZE]
  | cons h t ih =>
    intro c
    unfold evictLoop
    by_cases hlen : MAX_CACHE_SIZE ≤ t.length + 1
    · rw [if_pos hlen]
      exact ih _
    · rw [if_neg hlen]
      simp only [List.length_cons]
      omega

/-- Below capacity the eviction loop does nothing. -/
theorem evictLoop_stop (c : List (String × WikiArticle)) (o : List String)
    (h : o.length < MAX_CACHE_SIZE) : evictLoop c o = (c, o) := by
  cases o with
  | nil => rfl
  | cons x t =>
    unfold evictLoop
    rw [if_neg (by simp only [List.length_cons] at h; omega)]

/-- At exactly the capacity, the eviction loop removes the single oldest
entry and stops. -/
theorem evictLoop_at_cap (c : List (String × WikiArticle)) (h : String)
    (t : List String) (hlen : (h :: t).length = MAX_CACHE_SIZE) :
    evictLoop c (h :: t) = (mapDelete c h, t) := by
  simp only [List.length_cons] at hlen
  unfold evictLoop
  rw [if_pos (by omega)]
  exact evictLoop_stop _ _ (by simp only [MAX_CACHE_SIZE] at hlen ⊢; omega)

/-- Deleting a key from the association list filters it out of the key
list. -/
theorem mapDelete_keys (k : String) :
    ∀ c : List (String × WikiArticle),
      (mapDelete c k).map Prod.fst = (c.map Prod.fst).filter (fun x => x ≠ k) := by
  intro c
  induction c with
  | nil => rfl
  | cons p t ih =>
    by_cases hp : p.1 = k
    · simp [mapDelete, List.filter_cons, hp] at ih ⊢
      exact ih
    · simp [mapDelete, List.filter_cons, hp] at ih ⊢
      exact ih

/-- The eviction loop keeps the association list and the insertion-order list
consistent: if the keys of the cache are exactly the order list
(duplicate-free), the same holds afterwards. -/
theorem evictLoop_consistent (o : List String) :
    ∀ c, c.map Prod.fst = o → o.Nodup →
      ((evictLoop c o).1).map Prod.fst = (evictLoop c o).2 ∧ ((evictLoop c o).2).Nodup := by
  induction o with
  | nil => intro c hc _; simpa [evictLoop] using hc
  | cons h t ih =>
    intro c hc hnodup
    obtain ⟨hnotmem, htnodup⟩ := List.nodup_cons.mp hnodup
    unfold evictLoop
    by_cases hlen : MAX_CACHE_SIZE ≤ t.length + 1
    · rw [if_pos hlen]
      refine ih _ ?_ htnodup
      have hfil : t.filter (fun x => x ≠ h) = t := by
        refine List.filter_eq_self.mpr ?_
        intro x hx
        simp only [ne_eq, decide_eq_true_eq]
        exact fun heq => hnotmem (heq ▸ hx)
      rw [mapDelete_keys, hc, List.filter_cons_of_neg (by simp), hfil]
    · rw [if_neg hlen]
      exact ⟨hc, hnodup⟩

/-- Setting a key grows the association list by at most one entry. -/
theorem mapSet_length (c : List (String × WikiArticle)) (k : String) (v : WikiArticle) :
    (mapSet c k v).length ≤ c.length + 1 := by
  unfold mapSet
  by_cases hmem : c.any (fun p => p.1 == k)
  · rw [if_pos hmem]
    simp
  · rw [if_neg hmem]
    simp

/-- The detail article cached under the key of pageid `i` in the FIFO
scenario below. -/
def c8Article (i : Nat) : WikiArticle :=
  { pageid := i, title := "", extract := "", fullurl := "" }

/-- The hover cache and its insertion order after inserting 51 distinct
("en", pageid) entries into the initially empty cache. -/
def c8CacheAfter51 : List (String × WikiArticle) × List String :=
  ((List.range 51).map (fun i => (getCacheKey i "en", c8Article i))).foldl
    (fun co e => addToCache co.1 co.2 e.1 e.2) ([], [])

set_option maxRecDepth 4000 in
/-- C8.  FIFO eviction of the hover cache: the insertion-order list never
exceeds the 50-entry capacity after an insertion, and neither does the cache
itself whenever its keys are exactly the (duplicate-free) insertion-order
list; inserting into a cache exactly at capacity evicts the single
oldest-inserted key before inserting the new one (strict insertion order);
`handleMarkerHover` — in particular a cache-hit read — never modifies the
cache or the insertion order, so reads never refresh an entry's position;
and after inserting 51 distinct ("en", id) entries into the empty cache the
1st entry is no longer retrievable while the 2nd through 51st all are. -/
theorem hover_cache_fifo :
    (∀ (c : List (String × WikiArticle)) (o : List String) (k : String) (v : WikiArticle),
      ((addToCache c o k v).2).length ≤ MAX_CACHE_SIZE) ∧
    (∀ (c : List (String × WikiArticle)) (o : List String) (k : String) (v : WikiArticle),
      c.map Prod.fst = o → o.Nodup → ((addToCache c o k v).1).length ≤ MAX_CACHE_SIZE) ∧
    (∀ (c : List (String × WikiArticle)) (h : String) (t : List String)
        (k : String) (v : WikiArticle), (h :: t).length = MAX_CACHE_SIZE →
      addToCache c (h :: t) k v = (mapSet (mapDelete c h) k v, t ++ [k])) ∧
    (∀ (s : HoverState) (language : String) (place : WikiPlace) (x y : ℚ),
      (handleMarkerHover language place x y s).cache = s.cache ∧
      (handleMarkerHover language place x y s).cacheOrder = s.cacheOrder) ∧
    (mapGet c8CacheAfter51.1 (getCacheKey 0 "en") = none ∧
     ∀ i ∈ List.range 51, 1 ≤ i →
       mapGet c8CacheAfter51.1 (getCacheKey i "en") = some (c8Article i)) := by
  refine ⟨?_, ?_, ?_, ?_, ?_⟩
  · intro c o k v
    have := evictLoop_order_length o c
    unfold addToCache
    simp only [List.length_append, List.length_singleton]
    omega
  · intro c o k v hc hnodup
    obtain ⟨hkeys, _⟩ := evictLoop_consistent o c hc hnodup
    have hlt := evictLoop_order_length o c
    have hclen : ((evictLoop c o).1).length < MAX_CACHE_SIZE := by
      have := congrArg List.length hkeys
      simp only [List.length_map] at this
      omega
    unfold addToCache
    calc (mapSet (evictLoop c o).1 k v).length
        ≤ ((evictLoop c o).1).length + 1 := mapSet_length _ _ _
      _ ≤ MAX_CACHE_SIZE := by omega
  · intro c h t k v hlen
    unfold addToCache
    rw [evictLoop_at_cap c h t hlen]
  · intro s language place x y
    constructor <;> (unfold handleMarkerHover; dsimp only; split <;> rfl)
  · decide

/-- C8, witness: inserting into a cache whose order list holds exactly 50
keys evicts precisely the oldest key "en:0" and appends the new key
"en:50". -/
theorem hover_cache_fifo_witness :
    addToCache [] (getCacheKey 0 "en" :: (List.range 49).map (fun i => getCacheKey (i + 1) "en"))
        (getCacheKey 50 "en") (c8Article 50) =
      (mapSet (mapDelete [] (getCacheKey 0 "en")) (getCacheKey 50 "en") (c8Article 50),
       (List.range 49).map (fun i => getCacheKey (i + 1) "en") ++ [getCacheKey 50 "en"]) :=
  hover_cache_fifo.2.2.1 [] _ _ _ _ (by simp [MAX_CACHE_SIZE])

/-! ## Claim C9: discovery no-repeat -/

/-- A suffix of length at most `k` survives truncation to the last `k`
elements. -/
theorem suffix_drop_of_suffix {ys l : List Nat} (k : Nat) (h : ys <:+ l)
    (hk : ys.length ≤ k) : ys <:+ l.drop (l.length - k) := by
  rcases le_or_lt k l.length with hkl | hkl
  · have hys := h.length_le
    rw [List.suffix_iff_eq_drop] at h
    have harith : l.length - ys.length = (l.length - k) + (k - ys.length) := by omega
    rw [harith, ← List.drop_drop] at h
    exact h ▸ List.drop_suffix _ _
  · have h0 : l.length - k = 0 := by omega
    rw [h0, List.drop_zero]
    exact h

/-- An in-range `getD` picks an element of the list. -/
theorem getD_mod_mem {l : List Nat} (r : Nat) (h : 0 < l.length) :
    l.getD (r % l.length) 0 ∈ l := by
  have hlt : r % l.length < l.length := Nat.mod_lt _ h
  rw [List.getD_eq_getElem?_getD, List.getElem?_eq_getElem hlt]
  exact List.getElem_mem hlt

/-- With at least 6 locations and a history of at most 5 entries, the
candidate set of a pick is never empty. -/
theorem pickDiscoveryIndex_avail_ne_nil {n : Nat} {hist : List Nat}
    (hn : 6 ≤ n) (hlen : hist.length ≤ 5) :
    (List.range n).filter (fun i => !(hist.contains i)) ≠ [] := by
  intro hnil
  have hsub : List.range n ⊆ hist := by
    intro i hi
    have hni := List.filter_eq_nil_iff.mp hnil i hi
    simp only [Bool.not_eq_true', Bool.not_eq_false] at hni
    simpa using hni
  have hle := ((List.nodup_range n).subperm hsub).length_le
  simp only [List.length_range] at hle
  omega

/-- With at least 6 locations and a history of at most 5 entries, the chosen
index is never in the history. -/
theorem pickDiscoveryIndex_not_mem_history {n : Nat} {hist : List Nat} (r : Nat)
    (hn : 6 ≤ n) (hlen : hist.length ≤ 5) :
    (pickDiscoveryIndex n hist r).1 ∉ hist := by
  have havail := pickDiscoveryIndex_avail_ne_nil hn hlen
  have hpos : 0 < ((List.range n).filter (fun i => !(hist.contains i))).length :=
    List.length_pos.mpr havail
  simp only [pickDiscoveryIndex]
  rw [if_pos hpos]
  have hmem := getD_mod_mem (l := (List.range n).filter (fun i => !(hist.contains i))) r hpos
  have := (List.mem_filter.mp hmem).2
  simp only [Bool.not_eq_true', Bool.not_eq_false] at this ⊢
  simpa using this

/-- Every pick truncates the history to at most `HISTORY_SIZE` entries. -/
theorem pickDiscoveryIndex_history_length (n : Nat) (hist : List Nat) (r : Nat) :
    ((pickDiscoveryIndex n hist r).2).length ≤ HISTORY_SIZE := by
  simp only [pickDiscoveryIndex, HISTORY_SIZE, List.length_drop, List.length_append,
    List.length_singleton]
  omega

/-- A short-enough suffix of the history, extended with the chosen index, is
a suffix of the truncated new history. -/
theorem pickDiscoveryIndex_suffix {n : Nat} {hist ys : List Nat} (r : Nat)
    (hsuf : ys <:+ hist) (hys : ys.length + 1 ≤ HISTORY_SIZE) :
    ys ++ [(pickDiscoveryIndex n hist r).1] <:+ (pickDiscoveryIndex n hist r).2 := by
  simp only [pickDiscoveryIndex]
  obtain ⟨t, ht⟩ := hsuf
  have hsuf2 : ys ++ [(pickDiscoveryIndex n hist r).1] <:+
      hist ++ [(pickDiscoveryIndex n hist r).1] :=
    ⟨t, by rw [← List.append_assoc, ht]⟩
  have hlen : hist.length + 1 - HISTORY_SIZE =
      (hist ++ [(pickDiscoveryIndex n hist r).1]).length - HISTORY_SIZE := by
    simp
  rw [hlen]
  refine suffix_drop_of_suffix HISTORY_SIZE ?_ (by simpa using hys)
  simpa only [pickDiscoveryIndex] using hsuf2

/-- The windowed no-repeat induction: if the indices already picked form a
short-enough duplicate-free suffix of the current history, the remaining
picks of the window keep the whole window duplicate-free. -/
theorem runDiscoveryPicks_window (n : Nat) (hn : 6 ≤ n) :
    ∀ (rs hist picked : List Nat),
      picked <:+ hist → hist.length ≤ HISTORY_SIZE →
      picked.length + rs.length ≤ HISTORY_SIZE → picked.Nodup →
      (picked ++ (runDiscoveryPicks n hist rs).1).Nodup := by
  intro rs
  induction rs with
  | nil =>
    intro hist picked _ _ _ hnd
    simpa [runDiscoveryPicks] using hnd
  | cons r rs ih =>
    intro hist picked hsuf hhlen hplen hnd
    simp only [runDiscoveryPicks]
    have hh5 : hist.length ≤ 5 := by simpa [HISTORY_SIZE] using hhlen
    have hnotmem : (pickDiscoveryIndex n hist r).1 ∉ hist :=
      pickDiscoveryIndex_not_mem_history r hn hh5
    have hys : picked.length + 1 ≤ HISTORY_SIZE := by
      simp only [List.length_cons] at hplen
      omega
    have hsuf2 := pickDiscoveryIndex_suffix (n := n) r hsuf hys
    have hnd2 : (picked ++ [(pickDiscoveryIndex n hist r).1]).Nodup := by
      rw [List.nodup_append]
      refine ⟨hnd, List.nodup_singleton _, ?_⟩
      intro a ha hb
      rw [List.mem_singleton] at hb
      subst hb
      exact hnotmem (hsuf.subset ha)
    have hrec := ih (pickDiscoveryIndex n hist r).2 (picked ++ [(pickDiscoveryIndex n hist r).1])
      hsuf2 (pickDiscoveryIndex_history_length n hist r)
      (by simp only [List.length_append, List.length_singleton, List.length_cons,
            List.length_nil] at hplen ⊢; omega)
      hnd2
    simpa [List.append_assoc] using hrec

/-- C9.  Discovery no-repeat: for every location list of length at least 6
and every sequence of choices the random source can make, any 5 consecutive
picks for the same theme return 5 pairwise distinct indices — each pick
excludes the up-to-5 most recent indices of the theme's history, appends its
choice and truncates the history to the 5 most recent; when the candidate set
excluding the history is empty the pick falls back to the full index set; and
every theme of `DISCOVERY_THEMES` has at least 6 locations. -/
theorem discovery_no_repeat :
    (∀ (n : Nat) (hist rs : List Nat),
      6 ≤ n → hist.length ≤ HISTORY_SIZE → rs.length = 5 →
      ((runDiscoveryPicks n hist rs).1).Nodup) ∧
    (∀ (n : Nat) (hist : List Nat) (r : Nat), 0 < n →
      (List.range n).filter (fun i => !(hist.contains i)) = [] →
      (pickDiscoveryIndex n hist r).1 ∈ List.range n) ∧
    (∀ theme : DiscoveryTheme, 6 ≤ themeLocationCount theme) := by
  refine ⟨?_, ?_, ?_⟩
  · intro n hist rs hn hh hr
    have h := runDiscoveryPicks_window n hn rs hist [] List.nil_suffix hh
      (by simp [hr, HISTORY_SIZE]) List.nodup_nil
    simpa using h
  · intro n hist r hn hnil
    simp only [pickDiscoveryIndex, hnil]
    rw [if_neg (by simp)]
    have hlen : 0 < (List.range n).length := by simpa using hn
    exact getD_mod_mem r hlen
  · intro theme
    cases theme <;> simp [themeLocationCount]

/-- C9, witness: 5 consecutive picks for the castles theme (10 locations),
starting from an empty history, with the random source always answering 0,
return 5 distinct indices. -/
theorem discovery_no_repeat_witness :
    ((runDiscoveryPicks (themeLocationCount .castles) [] [0, 0, 0, 0, 0]).1).Nodup :=
  discovery_no_repeat.1 (themeLocationCount .castles) [] [0, 0, 0, 0, 0]
    (by decide) (by decide) (by decide)

/-! ## Claim C1: stale-response suppression

The specification demands that once a second fetch B has been issued for a
logical slot, the resolution of the earlier fetch A must never mutate the
slot's state.  The source attempts this with
`if (abortControllerRef.current?.signal.aborted) return;` — but by the time A
resolves, `abortControllerRef.current` holds B's fresh (unaborted)
controller, so A's continuation passes the check and overwrites the state;
the click path has no check at all.  The schedules below evaluate the code at
such an interleaving for each of the three slots. -/

/-- Rounding to three decimals fixes every integer. -/
theorem round3_intCast (z : ℤ) : round3 (z : ℚ) = (z : ℚ) := by
  unfold round3
  have h : ((z : ℚ) * 1000) = ((z * 1000 : ℤ) : ℚ) := by push_cast; ring
  rw [h, round_intCast]
  push_cast
  exact mul_div_cancel_right₀ _ (by norm_num)

/-- The viewport keys for centers (48, 2) and (50, 8) differ. -/
theorem mkFetchKey_48_2_ne_50_8 :
    mkFetchKey 48 2 (calculateRadius 6000) "en" ≠
      mkFetchKey 50 8 (calculateRadius 6000) "en" := by
  intro h
  have h1 : round3 (48 : ℚ) = round3 (50 : ℚ) := congrArg FetchKey.latFixed3 h
  have e48 : round3 (48 : ℚ) = 48 := by
    have := round3_intCast 48
    norm_num at this
    exact this
  have e50 : round3 (50 : ℚ) = 50 := by
    have := round3_intCast 50
    norm_num at this
    exact this
  rw [e48, e50] at h1
  norm_num at h1

/-- The place returned by the superseded points fetch A. -/
def c1Place1 : WikiPlace := { pageid := 1, title := "Old", lat := 48, lon := 2 }

/-- The place hovered/clicked second (target of fetch B). -/
def c1Place2 : WikiPlace := { pageid := 2, title := "New", lat := 50, lon := 8 }

/-- The stale detail article returned by the superseded fetch A. -/
def c1Article1 : WikiArticle := { pageid := 1, title := "Old", extract := "", fullurl := "" }

/-- Points slot: fetch A fires at zoom 13, center (48, 2). -/
def c1GeoA : GeoState := fetchPlacesForBoundsStart 13 48 2 6000 "en" initialGeoState

/-- Points slot: before A resolves, fetch B fires for center (50, 8). -/
def c1GeoB : GeoState := fetchPlacesForBoundsStart 13 50 8 6000 "en" c1GeoA

/-- Points slot: A (controller 0) resolves after B was issued. -/
def c1GeoFinal : GeoState := fetchPlacesForBoundsResume 0 [c1Place1] c1GeoB

/-- Evaluation of the first fetch of the C1 points schedule. -/
theorem c1GeoA_eq :
    c1GeoA =
      { places := [], isLoading := true, isScanDisabled := false,
        lastFetchKey := some (mkFetchKey 48 2 (calculateRadius 6000) "en"),
        currentCtrl := some 0, abortedCtrls := [], ctrlCounter := 1,
        pending := [(0, mkFetchKey 48 2 (calculateRadius 6000) "en")] } := by
  unfold c1GeoA fetchPlacesForBoundsStart
  rw [if_neg (by norm_num [MIN_SCAN_ZOOM])]
  dsimp only [initialGeoState]
  rw [if_neg (by simp)]
  rfl

/-- Evaluation of the second fetch of the C1 points schedule: it aborts A's
controller 0 and installs its own controller 1 in the ref. -/
theorem c1GeoB_eq :
    c1GeoB =
      { places := [], isLoading := true, isScanDisabled := false,
        lastFetchKey := some (mkFetchKey 50 8 (calculateRadius 6000) "en"),
        currentCtrl := some 1, abortedCtrls := [0], ctrlCounter := 2,
        pending := [(0, mkFetchKey 48 2 (calculateRadius 6000) "en"),
                    (1, mkFetchKey 50 8 (calculateRadius 6000) "en")] } := by
  unfold c1GeoB fetchPlacesForBoundsStart
  rw [c1GeoA_eq, if_neg (by norm_num [MIN_SCAN_ZOOM])]
  dsimp only
  rw [if_neg (by simpa using mkFetchKey_48_2_ne_50_8)]
  rfl

/-- Evaluation of A's late resolution in the C1 points schedule: the
suppression check reads B's unaborted controller, so A's stale places are
published and the loading flag is cleared while B is still in flight. -/
theorem c1GeoFinal_eq :
    c1GeoFinal =
      { places := [c1Place1], isLoading := false, isScanDisabled := false,
        lastFetchKey := some (mkFetchKey 50 8 (calculateRadius 6000) "en"),
        currentCtrl := some 1, abortedCtrls := [0], ctrlCounter := 2,
        pending := [(1, mkFetchKey 50 8 (calculateRadius 6000) "en")] } := by
  unfold c1GeoFinal
  rw [c1GeoB_eq]
  rfl

/-- Hover slot: hover over place 1 (cache miss, timeout scheduled). -/
def c1HoverA : HoverState := handleMarkerHover "en" c1Place1 0 0 initialHoverState

/-- Hover slot: the 300 ms timeout fires, fetch A starts with controller 0. -/
def c1HoverB : HoverState := hoverTimeoutFire c1HoverA

/-- Hover slot: hover moves to place 2 before A resolves; controller 0 is
aborted and a new timeout is scheduled. -/
def c1HoverC : HoverState := handleMarkerHover "en" c1Place2 0 0 c1HoverB

/-- Hover slot: the second timeout fires, fetch B starts with controller 1,
which replaces controller 0 in the ref. -/
def c1HoverD : HoverState := hoverTimeoutFire c1HoverC

/-- Hover slot: A (controller 0, key "en:1") resolves after B started. -/
def c1HoverFinal : HoverState := hoverFetchResolve 0 (getCacheKey 1 "en") (some c1Article1) c1HoverD

/-- Selection slot: click on place 1, then on place 2 before the first detail
fetch resolves. -/
def c1SelB : SelectionState :=
  handleMarkerClickStart c1Place2 (handleMarkerClickStart c1Place1 initialSelectionState)

/-- Selection slot: the first click's detail fetch resolves last. -/
def c1SelFinal : SelectionState := handleMarkerClickResume 1 (some c1Article1) c1SelB

/-- C1.  The code violates stale-response suppression on all three logical
slots.  Points slot: after fetch B (key (50, 8)) is issued, the resolution of
the superseded fetch A (key (48, 2)) still publishes A's stale place list and
clears the loading flag while B is in flight, because the abort check reads
the current (B's, unaborted) controller.  Hover slot: after the hover target
changed to place 2 and B's fetch started, A's late resolution still inserts
place 1's article into the cache and displays it.  Selection slot: after
place 2 was selected, the resolution of place 1's detail fetch still
populates the panel (there is no check at all on the click path). -/
theorem stale_resolution_mutates_state :
    (c1GeoB.places = [] ∧ c1GeoFinal.places = [c1Place1] ∧
     c1GeoFinal.isLoading = false ∧
     c1GeoFinal.pending = [(1, mkFetchKey 50 8 (calculateRadius 6000) "en")]) ∧
    (c1HoverD.hoveredArticle = none ∧ c1HoverD.cache = [] ∧
     c1HoverFinal.hoveredArticle = some c1Article1 ∧
     mapGet c1HoverFinal.cache (getCacheKey 1 "en") = some c1Article1) ∧
    (c1SelFinal.selectedPlace = some c1Place2 ∧
     c1SelFinal.selectedArticle = some c1Article1) := by
  refine ⟨⟨?_, ?_, ?_, ?_⟩, ⟨rfl, rfl, rfl, rfl⟩, rfl, rfl⟩
  · rw [c1GeoB_eq]
  · rw [c1GeoFinal_eq]
  · rw [c1GeoFinal_eq]
  · rw [c1GeoFinal_eq]

/-! ## Claim C2: failure semantics of a geo fetch

`fetchNearbyPlaces` converts every failure into `[]` before returning, so the
coordinator's `catch` branch (the only code path that would preserve the
previous point set) is unreachable: a network failure reaches
`setPlaces(nearbyPlaces)` as an empty list and clears the published set. -/

/-- The point set published before the failing fetch of the C2 schedule. -/
def c2Place : WikiPlace := { pageid := 3, title := "Kept", lat := 48, lon := 2 }

/-- C2 schedule: a fetch for center (48, 2) is issued ... -/
def c2GeoA : GeoState := fetchPlacesForBoundsStart 13 48 2 6000 "en" initialGeoState

/-- ... and resolves successfully, publishing one place. -/
def c2Published : GeoState :=
  fetchPlacesForBoundsResume 0 (fetchNearbyPlacesResult (.success [c2Place])) c2GeoA

/-- The user pans to (50, 8); a new fetch is issued ... -/
def c2GeoB : GeoState := fetchPlacesForBoundsStart 13 50 8 6000 "en" c2Published

/-- ... and fails with a network error, which `fetchNearbyPlaces` converts
into an empty list. -/
def c2Failed : GeoState :=
  fetchPlacesForBoundsResume 1 (fetchNearbyPlacesResult .failure) c2GeoB

/-- Evaluation of the first fetch of the C2 schedule. -/
theorem c2GeoA_eq :
    c2GeoA =
      { places := [], isLoading := true, isScanDisabled := false,
        lastFetchKey := some (mkFetchKey 48 2 (calculateRadius 6000) "en"),
        currentCtrl := some 0, abortedCtrls := [], ctrlCounter := 1,
        pending := [(0, mkFetchKey 48 2 (calculateRadius 6000) "en")] } := by
  unfold c2GeoA fetchPlacesForBoundsStart
  rw [if_neg (by norm_num [MIN_SCAN_ZOOM])]
  dsimp only [initialGeoState]
  rw [if_neg (by simp)]
  rfl

/-- Evaluation of the successful resolution: one place is published. -/
theorem c2Published_eq :
    c2Published =
      { places := [c2Place], isLoading := false, isScanDisabled := false,
        lastFetchKey := some (mkFetchKey 48 2 (calculateRadius 6000) "en"),
        currentCtrl := some 0, abortedCtrls := [], ctrlCounter := 1,
        pending := [] } := by
  unfold c2Published
  rw [c2GeoA_eq]
  rfl

/-- Evaluation of the second fetch of the C2 schedule. -/
theorem c2GeoB_eq :
    c2GeoB =
      { places := [c2Place], isLoading := true, isScanDisabled := false,
        lastFetchKey := some (mkFetchKey 50 8 (calculateRadius 6000) "en"),
        currentCtrl := some 1, abortedCtrls := [0], ctrlCounter := 2,
        pending := [(1, mkFetchKey 50 8 (calculateRadius 6000) "en")] } := by
  unfold c2GeoB fetchPlacesForBoundsStart
  rw [c2Published_eq, if_neg (by norm_num [MIN_SCAN_ZOOM])]
  dsimp only
  rw [if_neg (by simpa using mkFetchKey_48_2_ne_50_8)]
  rfl

/-- Evaluation of the failing resolution of the C2 schedule. -/
theorem c2Failed_eq :
    c2Failed =
      { places := [], isLoading := false, isScanDisabled := false,
        lastFetchKey := some (mkFetchKey 50 8 (calculateRadius 6000) "en"),
        currentCtrl := some 1, abortedCtrls := [0], ctrlCounter := 2,
        pending := [] } := by
  unfold c2Failed
  rw [c2GeoB_eq]
  rfl

/-- C2, counterexample to the claim as stated.  A geo fetch that fails with a
network error does not leave the previously published point set unchanged:
`fetchNearbyPlaces` returns `[]` for the failure, the coordinator publishes
it, and the previously published set `[c2Place]` is cleared. -/
theorem network_failure_clears_places :
    fetchNearbyPlacesResult .failure = [] ∧
    c2Published.places = [c2Place] ∧
    c2Failed.places = [] ∧
    c2Failed.places ≠ c2Published.places := by
  refine ⟨rfl, ?_, ?_, ?_⟩
  · rw [c2Published_eq]
  · rw [c2Failed_eq]
  · rw [c2Failed_eq, c2Published_eq]
    simp

/-- The abort check of the points slot never reads the pending list. -/
theorem currentAborted_set_pending (s : GeoState) (l : List (Nat × FetchKey)) :
    currentAborted { s with pending := l } = currentAborted s := rfl

/-- C2, amended.  `fetchNearbyPlaces` converts every failure into an empty
list (logging it, never raising to the caller), and the coordinator publishes
that empty list: whenever an unsuppressed geo fetch resolves against a
network failure, the previous point set is replaced by `[]` and the loading
flag is cleared — a network failure is indistinguishable from an explicit
empty result, and the coordinator's `catch` branch that would preserve the
point set is unreachable through `fetchNearbyPlaces`. -/
theorem network_failure_publishes_empty (s : GeoState) (ctrl : Nat)
    (h : currentAborted s = false) :
    fetchPlacesForBoundsResume ctrl (fetchNearbyPlacesResult .failure) s =
      { s with places := [], isLoading := false,
               pending := s.pending.filter (fun p => p.1 ≠ ctrl) } := by
  unfold fetchPlacesForBoundsResume fetchNearbyPlacesResult
  dsimp only
  rw [currentAborted_set_pending, h]
  rfl

/-- C2, witness: the amended failure-semantics theorem applied to the initial
state with controller 0. -/
theorem network_failure_publishes_empty_witness :
    fetchPlacesForBoundsResume 0 (fetchNearbyPlacesResult .failure) initialGeoState =
      { initialGeoState with
          places := [], isLoading := false,
          pending := initialGeoState.pending.filter (fun p => p.1 ≠ 0) } :=
  network_failure_publishes_empty initialGeoState 0 rfl

end WikiGraph
